import Mathlib

/-!
Shallow embedding of the flow-execution core of `rasa/core/policies/flow_policy.py`
(the stack-based conversation-flow interpreter), together with theorems settling
the frozen claims about it.

Python machine values are modelled as follows: slot values are a closed union
of null, booleans, integers, floats and strings; Python floats are modelled as
rationals (every float literal appearing in the source is small and exact);
fallible code returns `Except PyError`; the unbounded decision loop takes
explicit fuel, with exhaustion reported as a distinguished error.
-/

namespace FlowPolicy

/-- Error taxonomy of the embedded code: `FlowException`, `ValueError`,
`NotImplementedError` and `AttributeError` mirror the Python exceptions raised
by the source; `outOfFuel` marks exhaustion of the explicit fuel that stands in
for the unbounded `while` loop. -/
inductive PyError where
  | flowException (msg : String)
  | valueError (msg : String)
  | notImplementedError
  | attributeError
  | outOfFuel
  deriving DecidableEq, Repr

/-- Slot values: the closed union of Python values this component stores in
slots (null, bool, int, float, str). Floats are modelled as rationals. -/
inductive Value where
  | vnone
  | vbool (b : Bool)
  | vint (n : Int)
  | vfloat (q : ℚ)
  | vstr (s : String)
  deriving DecidableEq, Repr

/-- Python `str()` on a slot value (only the int and str branches are ever
reachable from `get_value`; the others are given their Python renderings). -/
def pyStr : Value → String
  | .vnone => "None"
  | .vbool true => "True"
  | .vbool false => "False"
  | .vint n => toString n
  | .vfloat q => toString q
  | .vstr s => s

/-- Lowercasing of one character, restricted to ASCII (the fragment Python
`str.lower` needs for the "true"/"false" comparison). -/
def charLower (c : Char) : Char :=
  if 65 ≤ c.toNat ∧ c.toNat ≤ 90 then Char.ofNat (c.toNat + 32) else c

/-- Python `str.lower`, restricted to ASCII, over the character list of the
string. -/
def strToLower (s : String) : String :=
  ⟨s.data.map charLower⟩

/-- Python `str.isnumeric` restricted to ASCII: nonempty and all digits. -/
def strIsNumeric (s : String) : Bool :=
  !s.data.isEmpty && s.data.all Char.isDigit

/-- Base-10 value of a digit character list. -/
def natOfDigits (l : List Char) : Nat :=
  l.foldl (fun acc c => 10 * acc + (c.toNat - 48)) 0

/-- Python `float(s)` on a digit-only string (the only calls `get_value`
makes are guarded by `isnumeric`). -/
def floatOfNumeric (s : String) : ℚ :=
  (natOfDigits s.data : ℚ)

/-- Embeds the inner helper `get_value` of
`FlowExecutor.is_condition_satisfied` (flow_policy.py lines 623-640): null,
bool and float pass through; anything else is stringified, then a
case-insensitive "true"/"false" becomes a boolean, a purely numeric string
becomes a float, and otherwise the string itself is kept. -/
def get_value (v : Value) : Value :=
  match v with
  | .vnone => .vnone
  | .vbool b => .vbool b
  | .vfloat q => .vfloat q
  | _ =>
    let s := pyStr v
    if strToLower s = "true" || strToLower s = "false" then
      .vbool (strToLower s = "true")
    else if strIsNumeric s then
      .vfloat (floatOfNumeric s)
    else
      .vstr s

/-- Spec-side coercion, following claim C6 word for word: null stays null; a
string equal case-insensitively to "true"/"false" coerces to the boolean; a
purely numeric string coerces to a float; any other value is left as
(converted to) a string; booleans and floats pass through unchanged. -/
def coerceSpecC6 (v : Value) : Value :=
  match v with
  | .vnone => .vnone
  | .vbool b => .vbool b
  | .vfloat q => .vfloat q
  | .vstr s =>
    if strToLower s = "true" || strToLower s = "false" then
      .vbool (strToLower s = "true")
    else if strIsNumeric s then
      .vfloat (floatOfNumeric s)
    else
      .vstr s
  | other => .vstr (pyStr other)

/-- String-rule part of the coercion, used to state the amended claim C6:
the rules applied to the stringified form of a non-null non-bool non-float
value. -/
def stringCoercionRules (s : String) : Value :=
  if strToLower s = "true" || strToLower s = "false" then
    .vbool (strToLower s = "true")
  else if strIsNumeric s then
    .vfloat (floatOfNumeric s)
  else
    .vstr s

/-! ## Constants

Reserved step ids and action names. `START_STEP` / `END_STEP` come from
`rasa.shared.core.flows.flow`, the action names from
`rasa.shared.core.constants`; those modules are outside the embedded source,
so the concrete strings are modelled from the spec (reserved start/end ids,
the canonical listen action and the resume-interrupted action). Nothing below
depends on the particular strings, only on their distinctness where used. -/

/-- Modelled from the spec: reserved id of the synthetic start step. -/
def START_STEP : String := "__start__"

/-- Modelled from the spec: reserved id of the terminal End step. -/
def END_STEP : String := "__end__"

/-- Modelled from the spec: canonical listen action name. -/
def ACTION_LISTEN_NAME : String := "action_listen"

/-- Modelled from the spec: name of the resume-interrupted action emitted when
an interrupting flow ends. -/
def ACTION_FLOW_CONTINUE_INERRUPTED_NAME : String := "action_flow_continue_interrupted"

/-- Modelled from the spec: prefix of the start-flow trigger action name
(`FLOW_PREFIX` in the source). -/
def flowPrefixVal : String := "flow_"

/-! ## Predicate evaluator

The source delegates condition evaluation to the external `pypred` library
(`Predicate(predicate).analyze(text_slots)`). The predicate language is
modelled from the spec (section 4.2): relational comparisons of a named slot
variable against a numeric constant, evaluated over the coerced slot values. -/

/-- Comparison operators of the modelled predicate language. -/
inductive CmpOp where
  | gt
  | lt
  | ge
  | le
  | eqOp
  deriving DecidableEq, Repr

/-- Modelled from the spec: a condition expression compares one named slot
variable against a numeric constant. -/
structure Pred where
  slot : String
  op : CmpOp
  num : ℚ
  deriving DecidableEq, Repr

/-- Modelled from the spec: evaluation of a condition over the coerced slot
values; a comparison against a non-numeric or missing value is false. -/
def evalPred (p : Pred) (text_slots : List (String × Value)) : Bool :=
  match text_slots.find? (fun kv => kv.1 = p.slot) with
  | some (_, Value.vfloat q) =>
    match p.op with
    | .gt => p.num < q
    | .lt => q < p.num
    | .ge => p.num ≤ q
    | .le => q ≤ p.num
    | .eqOp => q = p.num
  | _ => false

/-! ## Flow graph model -/

/-- Outgoing links of a step: `StaticFlowLink`, `IfFlowLink` (whose condition
is optional, mirroring `link.condition` truthiness in the source) and
`ElseFlowLink`. -/
inductive FlowLink where
  | static (target : String)
  | ifLink (condition : Option Pred) (target : String)
  | elseLink (target : String)
  deriving DecidableEq, Repr

/-- Target of a link (`link.target` in the source). -/
def FlowLink.target : FlowLink → String
  | .static t => t
  | .ifLink _ t => t
  | .elseLink t => t

/-- Question scope (`QuestionScope` in `rasa.shared.core.flows.flow`). -/
inductive QuestionScope where
  | flow
  | globalScope
  deriving DecidableEq, Repr

/-- Modelled from the spec: a trigger step's declared intent and entity
conditions (`UserMessageStep` in `rasa.shared.core.flows.flow`). -/
structure TriggerConditions where
  intents : List String
  entities : List String
  deriving DecidableEq, Repr

/-- Modelled from the spec: a trigger step matches when the classified intent
is one of its declared intents and every declared entity type is among the
classified entity types. -/
def TriggerConditions.is_triggered (tc : TriggerConditions)
    (intent : String) (entities : List String) : Bool :=
  tc.intents.contains intent && tc.entities.all (fun e => entities.contains e)

/-- Step variants (`QuestionFlowStep`, `ActionFlowStep`, `LinkFlowStep`,
`SetSlotsFlowStep`, `UserMessageStep`, `EndFlowStep`), as a closed union. -/
inductive StepBody where
  | question (slotName : String) (skip_if_filled : Bool) (scope : QuestionScope)
  | action (name : String)
  | link (target_flow_id : String)
  | set_slots (slots : List (String × Value))
  | user_message (trigger : TriggerConditions)
  | endStep
  deriving DecidableEq, Repr

/-- A flow step: its id, variant data and outgoing links (`step.next.links`). -/
structure FlowStep where
  id : String
  body : StepBody
  next : List FlowLink
  deriving DecidableEq, Repr

/-- A flow: id, human-readable name, description and its authored steps. -/
structure Flow where
  id : String
  name : String
  description : String
  steps : List FlowStep
  deriving DecidableEq, Repr

/-- Modelled from the spec: step lookup inside a flow; the reserved End id
resolves to a synthesized End step (terminal steps need not declare it), any
other id is looked up in the authored steps. -/
def Flow.step_for_id (f : Flow) (step_id : String) : Option FlowStep :=
  if step_id = END_STEP then some { id := END_STEP, body := .endStep, next := [] }
  else f.steps.find? (fun s => s.id = step_id)

/-- Modelled from the spec: the flow's first step, the one a trigger
declaration must occupy. -/
def Flow.first_step_in_flow (f : Flow) : Option FlowStep :=
  f.steps.head?

/-- Lookup of a flow by id in the flow library (`FlowsList.flow_by_id`). -/
def flow_by_id (flows : List Flow) (flow_id : String) : Option Flow :=
  flows.find? (fun f => f.id = flow_id)

/-- Modelled from the spec: `FlowsList.step_by_id`; a resolved id missing from
the flow's step table (or a dangling flow id) is a fatal dangling-reference
error. -/
def step_by_id (flows : List Flow) (step_id : String) (flow_id : String) :
    Except PyError FlowStep :=
  match flow_by_id flows flow_id with
  | none => .error (.flowException ("No flow with id " ++ flow_id))
  | some f =>
    match f.step_for_id step_id with
    | some s => .ok s
    | none => .error (.flowException ("No step with id " ++ step_id))

/-! ## Stack frames and their serialization -/

/-- Frame types (`StackFrameType`), whose string values are the serialized
forms used by `as_dict` / `from_str`. -/
inductive StackFrameType where
  | interrupt
  | link
  | regular
  deriving DecidableEq, Repr

/-- Serialized string of a frame type (`StackFrameType.value`). -/
def StackFrameType.value : StackFrameType → String
  | .interrupt => "interrupt"
  | .link => "link"
  | .regular => "regular"

/-- Embeds `StackFrameType.from_str` (flow_policy.py lines 487-499): a missing
type string yields `regular`; an unrecognized one raises
`NotImplementedError`. -/
def StackFrameType.from_str (typ : Option String) : Except PyError StackFrameType :=
  match typ with
  | none => .ok .regular
  | some t =>
    if t = StackFrameType.interrupt.value then .ok .interrupt
    else if t = StackFrameType.link.value then .ok .link
    else if t = StackFrameType.regular.value then .ok .regular
    else .error .notImplementedError

/-- A persisted frame dictionary: the keys `flow_id` and `step_id` are always
read with `[]` in the source, `frame_type` with `.get` (hence optional). -/
structure FrameDict where
  flow_id : String
  step_id : String
  frame_type : Option String
  deriving DecidableEq, Repr

/-- A flow-stack frame (`FlowStackFrame`): flow id, current step id and frame
type. -/
structure FlowStackFrame where
  flow_id : String
  step_id : String := START_STEP
  frame_type : StackFrameType := .regular
  deriving DecidableEq, Repr

/-- Embeds `FlowStackFrame.from_dict` (flow_policy.py lines 513-527). -/
def FlowStackFrame.from_dict (data : FrameDict) : Except PyError FlowStackFrame := do
  let ft ← StackFrameType.from_str data.frame_type
  pure { flow_id := data.flow_id, step_id := data.step_id, frame_type := ft }

/-- Embeds `FlowStackFrame.as_dict` (flow_policy.py lines 529-539). -/
def FlowStackFrame.as_dict (f : FlowStackFrame) : FrameDict :=
  { flow_id := f.flow_id, step_id := f.step_id, frame_type := some f.frame_type.value }

/-- Embeds `FlowStackFrame.with_updated_id`. -/
def FlowStackFrame.with_updated_id (f : FlowStackFrame) (step_id : String) :
    FlowStackFrame :=
  { flow_id := f.flow_id, step_id := step_id, frame_type := f.frame_type }

/-! ## The flow stack

The Python stack is a list whose last element is the top (`frames[-1]`); the
embedding keeps that orientation, so `push` appends, `top` is `getLast?` and
`frames[-2]` is `dropLast.getLast?`. -/

/-- The flow stack (`FlowStack`): ordered frames, last element active. -/
structure FlowStack where
  frames : List FlowStackFrame
  deriving DecidableEq, Repr

/-- Embeds `FlowStack.from_dict`: deserializes every frame in order. -/
def FlowStack.from_dict (data : List FrameDict) : Except PyError FlowStack := do
  let fs ← data.mapM FlowStackFrame.from_dict
  pure { frames := fs }

/-- Embeds `FlowStack.as_dict`. -/
def FlowStack.as_dict (s : FlowStack) : List FrameDict :=
  s.frames.map FlowStackFrame.as_dict

/-- Embeds `FlowStack.push` (appends at the top end). -/
def FlowStack.push (s : FlowStack) (frame : FlowStackFrame) : FlowStack :=
  { frames := s.frames ++ [frame] }

/-- Embeds `FlowStack.is_empty`. -/
def FlowStack.is_empty (s : FlowStack) : Bool :=
  s.frames.length = 0

/-- Embeds `FlowStack.top` (peek, nullable). -/
def FlowStack.top (s : FlowStack) : Option FlowStackFrame :=
  s.frames.getLast?

/-- Embeds `FlowStack.pop`; Python raises on an empty list, modelled by
`none`. -/
def FlowStack.pop (s : FlowStack) : Option (FlowStackFrame × FlowStack) :=
  match s.frames.getLast? with
  | none => none
  | some f => some (f, { frames := s.frames.dropLast })

/-- Embeds `FlowStack.advance_top_flow`: mutates the top frame's step id, a
no-op on the empty stack. -/
def FlowStack.advance_top_flow (s : FlowStack) (updated_id : String) : FlowStack :=
  match s.frames.getLast? with
  | none => s
  | some top =>
    { frames := s.frames.dropLast ++ [top.with_updated_id updated_id] }

/-- Embeds `FlowStack.top_flow`. -/
def FlowStack.top_flow (s : FlowStack) (flows : List Flow) : Option Flow :=
  match s.top with
  | none => none
  | some top => flow_by_id flows top.flow_id

/-- Embeds `FlowStack.top_flow_step`: the step the top frame points at, or
`none` when there is no active flow, the flow is unknown, or the step id does
not resolve. -/
def FlowStack.top_flow_step (s : FlowStack) (flows : List Flow) : Option FlowStep :=
  match s.top, s.top_flow flows with
  | some top, some top_flow => top_flow.step_for_id top.step_id
  | _, _ => none

/-! ## Conversation state (tracker and domain) -/

/-- A slot object (`rasa.shared.core.slots.Slot`): name, declared initial
value and current value. Tracker slots and domain slots are both of this
shape. -/
structure Slot where
  name : String
  initial_value : Value
  value : Value
  deriving DecidableEq, Repr

/-- The most recent user message: classified intent name (empty when absent,
mirroring `intent.get(INTENT_NAME_KEY, "")`) and classified entity types. -/
structure Message where
  intentName : String
  entityTypes : List String
  deriving DecidableEq, Repr

/-- The conversation snapshot consumed by the executor. `flow_stack_slot` is
the persisted stack blob (`tracker.get_slot(FLOW_STACK_SLOT) or []`);
`loop_happy_path_action` is modelled from the spec: the action of the
multi-turn collection loop currently in flight, if any
(`RulePolicy._find_action_from_loop_happy_path`). -/
structure Tracker where
  slots : List Slot
  latest_action_name : Option String
  latest_message : Option Message
  active_loop_name : Option String
  loop_happy_path_action : Option String
  flow_stack_slot : List FrameDict
  deriving DecidableEq, Repr

/-- Embeds `tracker.get_slot`: the current value of a named slot, null when
the slot is unknown. -/
def Tracker.get_slot (tr : Tracker) (name : String) : Value :=
  match tr.slots.find? (fun s => s.name = name) with
  | some s => s.value
  | none => .vnone

/-- Embeds `tracker.slots.get(name, None)`. -/
def Tracker.slot_obj (tr : Tracker) (name : String) : Option Slot :=
  tr.slots.find? (fun s => s.name = name)

/-- The domain's slot declarations. -/
structure Domain where
  slots : List Slot
  deriving DecidableEq, Repr

/-- Embeds `FlowStack.from_tracker`: rehydrates the stack from the persisted
blob. -/
def FlowStack.from_tracker (tr : Tracker) : Except PyError FlowStack :=
  FlowStack.from_dict tr.flow_stack_slot

/-! ## Events and predictions -/

/-- Value carried by a slot-set event: an ordinary slot value, or the
serialized stack snapshot written to the stack slot. -/
inductive EvValue where
  | val (v : Value)
  | stack (d : List FrameDict)
  deriving DecidableEq, Repr

/-- Mutation events the executor emits: `SlotSet` and `ActiveLoop`. -/
inductive Event where
  | slotSet (key : String) (value : EvValue)
  | activeLoop (name : Option String)
  deriving DecidableEq, Repr

/-- Modelled from the spec: name of the slot persisting the flow stack
(`FLOW_STACK_SLOT`). -/
def FLOW_STACK_SLOT : String := "flow_stack"

/-- An action prediction (`ActionPrediction`): optional action name, score,
optional metadata (the source only ever stores a `flow_name` entry) and
optional events. -/
structure ActionPrediction where
  action_name : Option String
  score : ℚ
  metadata : Option (List (String × Option String)) := none
  events : Option (List Event) := none
  deriving DecidableEq, Repr

/-! ## Flow executor -/

/-- Embeds `FlowExecutor.is_condition_satisfied` (flow_policy.py lines
617-647): builds the coerced slot table from every domain slot's current
tracker value and evaluates the predicate over it. -/
def is_condition_satisfied (predicate : Pred) (domain : Domain) (tr : Tracker) : Bool :=
  let text_slots := domain.slots.map (fun s => (s.name, get_value (tr.get_slot s.name)))
  evalPred predicate text_slots

/-- First scan of `_select_next_step_id`: the for-loop over `IfFlowLink`s with
a truthy condition, returning the first satisfied link's target. -/
def scanIfLinks (domain : Domain) (tr : Tracker) : List FlowLink → Option String
  | [] => none
  | FlowLink.ifLink (some c) t :: rest =>
    if is_condition_satisfied c domain tr then some t
    else scanIfLinks domain tr rest
  | _ :: rest => scanIfLinks domain tr rest

/-- Second scan of `_select_next_step_id`: the for-loop over `ElseFlowLink`s,
returning the first one's target. -/
def scanElseLinks : List FlowLink → Option String
  | [] => none
  | FlowLink.elseLink t :: _ => some t
  | _ :: rest => scanElseLinks rest

/-- Guard of `_select_next_step_id`: the target when the outgoing links are
exactly one `StaticFlowLink` (`len(next.links) == 1 and isinstance(...,
StaticFlowLink)`). -/
def singleStaticTarget : List FlowLink → Option String
  | [FlowLink.static t] => some t
  | _ => none

/-- Message of the exhaustiveness `ValueError` raised by
`_select_next_step_id`. -/
def exhaustivenessMsg : String :=
  "No link was selected, but links are present. Links must cover all possible cases."

/-- Embeds `FlowExecutor._select_next_step_id` (flow_policy.py lines 649-679):
a single static link wins unconditionally; else the first satisfied
conditional link; else an else link; with links present but nothing selected a
`ValueError` is raised; with no links a non-terminal step transitions to the
implicit End step and the End step itself has no successor. -/
def _select_next_step_id (current : FlowStep) (domain : Domain) (tr : Tracker) :
    Except PyError (Option String) :=
  match singleStaticTarget current.next with
  | some t => .ok (some t)
  | none =>
    match scanIfLinks domain tr current.next with
    | some t => .ok (some t)
    | none =>
      match scanElseLinks current.next with
      | some t => .ok (some t)
      | none =>
        if !current.next.isEmpty then
          .error (.valueError exhaustivenessMsg)
        else if current.id ≠ END_STEP then
          .ok (some END_STEP)
        else
          .ok none

/-- Embeds `FlowExecutor._select_next_step`: resolves the id and looks the
step up in the flow's step table (a dangling id is a fatal error inside
`step_by_id`). -/
def _select_next_step (tr : Tracker) (domain : Domain) (current_step : FlowStep)
    (flow_id : String) (flows : List Flow) : Except PyError (Option FlowStep) := do
  let next_id ← _select_next_step_id current_step domain tr
  match next_id with
  | none => pure none
  | some nid => do
    let s ← step_by_id flows nid flow_id
    pure (some s)

/-- Embeds `FlowExecutor._is_step_completed` (flow_policy.py lines 705-712):
a question step is completed exactly when its slot holds a non-null value;
every other step is always completed. This helper has no caller in the
source. -/
def _is_step_completed (step : FlowStep) (tr : Tracker) : Bool :=
  match step.body with
  | .question q _ _ => tr.get_slot q ≠ .vnone
  | _ => true

/-- For-loop body of `find_startable_flow`: scans the flows in enumeration
order for one whose first step is a `UserMessageStep` triggered by the
message. -/
def scanStartableFlows (msg : Message) : List Flow → Option Flow
  | [] => none
  | flow :: rest =>
    match flow.first_step_in_flow with
    | some first_step =>
      match first_step.body with
      | .user_message tc =>
        if tc.is_triggered msg.intentName msg.entityTypes then some flow
        else scanStartableFlows msg rest
      | _ => scanStartableFlows msg rest
    | none => scanStartableFlows msg rest

/-- Embeds `FlowExecutor.find_startable_flow` (flow_policy.py lines 586-615):
only when there is a latest message and the latest action is the listen action
does it scan the flows for a triggered one. -/
def find_startable_flow (flows : List Flow) (tr : Tracker) : Option Flow :=
  match tr.latest_message with
  | none => none
  | some msg =>
    if tr.latest_action_name ≠ some ACTION_LISTEN_NAME then none
    else scanStartableFlows msg flows

/-- Embeds `FlowExecutor.consider_flow_switch` (flow_policy.py lines
714-729): a startable flow is proposed via the prefixed start-flow action at
confidence 1; otherwise no action at confidence 0. -/
def consider_flow_switch (flows : List Flow) (tr : Tracker) : ActionPrediction :=
  match find_startable_flow flows tr with
  | some new_flow => { action_name := some (flowPrefixVal ++ new_flow.id), score := 1 }
  | none => { action_name := none, score := 0 }

/-- The initial value the source reads off a tracker slot object
(`slot.initial_value if slot else None`). -/
def trackerInitialValue (tr : Tracker) (name : String) : Value :=
  match tr.slot_obj name with
  | some s => s.initial_value
  | none => .vnone

/-- For-loop of `_reset_scoped_slots`: accumulates one reset event per
flow-scoped question step. -/
def resetScopedGo (tr : Tracker) : List FlowStep → List Event
  | [] => []
  | step :: rest =>
    match step.body with
    | .question q _ QuestionScope.flow =>
      Event.slotSet q (.val (trackerInitialValue tr q)) :: resetScopedGo tr rest
    | _ => resetScopedGo tr rest

/-- Embeds `FlowExecutor._reset_scoped_slots` (flow_policy.py lines 839-850):
one reset-to-initial event per flow-scoped question step of the flow, in step
order. -/
def _reset_scoped_slots (current_flow : Flow) (tr : Tracker) : List Event :=
  resetScopedGo tr current_flow.steps

/-- Embeds `FlowExecutor._wrap_up_previous_step` (flow_policy.py lines
852-877): for a question step, the in-flight collection loop's action is
re-emitted at confidence 1 when one is in flight, else no action; every other
variant yields no action. The slot value is not consulted. -/
def _wrap_up_previous_step (step : FlowStep) (tr : Tracker) : ActionPrediction :=
  match step.body with
  | .question _ _ _ =>
    match tr.loop_happy_path_action with
    | some active_loop_name => { action_name := some active_loop_name, score := 1 }
    | none => { action_name := none, score := 0 }
  | _ => { action_name := none, score := 0 }

/-- Embeds `FlowExecutor._run_step` (flow_policy.py lines 879-956). The stack
is passed and returned explicitly (the Python mutates `self.flow_stack`,
which only the link branch touches). -/
def _run_step (flows : List Flow) (flow : Flow) (step : FlowStep)
    (stack : FlowStack) (tr : Tracker) :
    Except PyError (ActionPrediction × FlowStack) :=
  match step.body with
  | .question q skip_if_filled _ =>
    match tr.slot_obj q with
    | none =>
      -- `slot.value` on a missing slot object raises AttributeError
      .error .attributeError
    | some slot =>
      let initial_value := slot.initial_value
      if skip_if_filled && slot.value ≠ initial_value then
        .ok ({ action_name := none, score := 0 }, stack)
      else
        let question_action : ActionPrediction :=
          { action_name := some ("question_" ++ q), score := 1,
            events :=
              if slot.value ≠ initial_value then
                some [Event.slotSet q (.val initial_value)]
              else none }
        .ok (question_action, stack)
  | .action a =>
    if a = "" then .error (.flowException "Action not specified for step")
    else .ok ({ action_name := some a, score := 1 }, stack)
  | .link target =>
    let stack' := stack.push
      { flow_id := target, step_id := START_STEP, frame_type := .link }
    if tr.active_loop_name.isSome then
      .ok ({ action_name := none, score := 0, events := some [Event.activeLoop none] },
        stack')
    else
      .ok ({ action_name := none, score := 0 }, stack')
  | .set_slots pairs =>
    .ok ({ action_name := none, score := 0,
           events := some (pairs.map (fun p => Event.slotSet p.1 (.val p.2))) }, stack)
  | .user_message _ =>
    .ok ({ action_name := none, score := 0 }, stack)
  | .endStep =>
    let events := _reset_scoped_slots flow tr
    if 2 ≤ stack.frames.length then
      match stack.frames.dropLast.getLast?, stack.frames.getLast? with
      | some previous_frame, some current_frame =>
        if current_frame.frame_type = .interrupt then
          .ok ({ action_name := some ACTION_FLOW_CONTINUE_INERRUPTED_NAME, score := 1,
                 metadata := some [("flow_name",
                   (flow_by_id flows previous_frame.flow_id).map Flow.name)],
                 events := some events }, stack)
        else
          .ok ({ action_name := none, score := 0, events := some events }, stack)
      | _, _ => .ok ({ action_name := none, score := 0, events := some events }, stack)
    else
      .ok ({ action_name := none, score := 0, events := some events }, stack)

/-- Embeds the `while` loop of `FlowExecutor._select_next_action`
(flow_policy.py lines 787-837), with explicit fuel standing in for the
unbounded iteration and `gathered` accumulating the events of all iterations
so far. Each iteration: an exhausted stack yields the listen action; a frame
whose step id does not resolve is an internal-consistency error; the previous
step is wrapped up and its action, if any, returned; otherwise the next step
is resolved, a finished frame is popped (resuming the exposed frame when the
popped one was an interrupt frame), and a resolved step is advanced to and
run; a zero-score prediction loops again. -/
def selectNextActionGo (flows : List Flow) (domain : Domain) (tr : Tracker) :
    Nat → FlowStack → List Event → Except PyError (ActionPrediction × FlowStack)
  | 0, _, _ => .error .outOfFuel
  | Nat.succ fuel, stack, gathered =>
    match stack.top_flow flows with
    | none =>
      .ok ({ action_name := some ACTION_LISTEN_NAME, score := 1,
             events := some gathered }, stack)
    | some current_flow =>
      match stack.top_flow_step flows with
      | none =>
        .error (.flowException
          "The current flow is set, but there is no current step.")
      | some previous_step => do
        let predicted_action := _wrap_up_previous_step previous_step tr
        let gathered := gathered ++ predicted_action.events.getD []
        if predicted_action.action_name.isSome then
          .ok ({ predicted_action with events := some gathered }, stack)
        else do
          let next_step ← _select_next_step tr domain previous_step current_flow.id flows
          let popped : Option FlowStep × FlowStack :=
            match next_step with
            | some s => (some s, stack)
            | none =>
              match stack.pop with
              | none => (none, stack)
              | some (frame, stack') =>
                if frame.frame_type = StackFrameType.interrupt then
                  (stack'.top_flow_step flows, stack')
                else (none, stack')
          let current_step? := popped.1
          let stack1 := popped.2
          match current_step? with
          | none => selectNextActionGo flows domain tr fuel stack1 gathered
          | some current_step => do
            let stack2 := stack1.advance_top_flow current_step.id
            let (pa, stack3) ← _run_step flows current_flow current_step stack2 tr
            let gathered := gathered ++ pa.events.getD []
            if pa.score = 0 then
              selectNextActionGo flows domain tr fuel stack3 gathered
            else
              .ok ({ pa with events := some gathered }, stack3)

/-- Embeds `FlowExecutor._select_next_action` (flow_policy.py lines 767-837):
runs the loop starting from the executor's stack with no gathered events. -/
def _select_next_action (fuel : Nat) (flows : List Flow) (stack : FlowStack)
    (tr : Tracker) (domain : Domain) : Except PyError (ActionPrediction × FlowStack) :=
  selectNextActionGo flows domain tr fuel stack []

/-- Embeds `FlowExecutor.advance_flows` (flow_policy.py lines 731-765): a
startable flow short-circuits with the trigger action; an empty stack yields
no action; otherwise the loop runs and, when the final stack's serialized
form differs from the one rehydrated from the tracker, a persistence event
carrying the new snapshot is appended. -/
def advance_flows (fuel : Nat) (flows : List Flow) (stack : FlowStack)
    (tr : Tracker) (domain : Domain) : Except PyError (ActionPrediction × FlowStack) :=
  let prediction := consider_flow_switch flows tr
  if prediction.action_name.isSome then
    .ok (prediction, stack)
  else if stack.is_empty then
    .ok ({ action_name := none, score := 0 }, stack)
  else do
    let (prediction, stack') ← _select_next_action fuel flows stack tr domain
    let rehydrated ← FlowStack.from_tracker tr
    if rehydrated.as_dict ≠ stack'.as_dict then
      let evs := prediction.events.getD []
      .ok ({ prediction with
             events := some (evs ++ [Event.slotSet FLOW_STACK_SLOT (.stack stack'.as_dict)]) },
        stack')
    else
      .ok (prediction, stack')

/-! ## Spec-side definitions

Definitions in this section follow the wording of the spec and of the claims
(not the source), for comparison with the embedded source functions. -/

/-- Whether a link is an else link. -/
def FlowLink.isElse : FlowLink → Bool
  | .elseLink _ => true
  | _ => false

/-- Whether a link is a conditional link with a truthy condition whose
predicate is satisfied in the current state. -/
def isSatisfiedIfLink (domain : Domain) (tr : Tracker) : FlowLink → Bool
  | .ifLink (some c) _ => is_condition_satisfied c domain tr
  | _ => false

/-- Spec-side next-step resolution, following claim C1 word for word: exactly
one static link returns its target unconditionally; otherwise the first
conditional link (in declaration order) whose predicate is true wins;
otherwise the first else link; otherwise, with no outgoing links, a
non-terminal step resolves to the reserved End id and the terminal End step
resolves to nothing; with links present but nothing selected, the
exhaustiveness error is raised. -/
def nextStepSpecC1 (step : FlowStep) (domain : Domain) (tr : Tracker) :
    Except PyError (Option String) :=
  match step.next with
  | [FlowLink.static t] => .ok (some t)
  | links =>
    match (links.find? (isSatisfiedIfLink domain tr)).map FlowLink.target with
    | some t => .ok (some t)
    | none =>
      match (links.find? FlowLink.isElse).map FlowLink.target with
      | some t => .ok (some t)
      | none =>
        if links.isEmpty then
          if step.id ≠ END_STEP then .ok (some END_STEP) else .ok none
        else
          .error (.valueError exhaustivenessMsg)

/-- Spec-side reset events of claim C2: one reset-to-initial event for every
flow-scoped question step of the flow, in step order. -/
def resetEventsSpec (flow : Flow) (tr : Tracker) : List Event :=
  flow.steps.filterMap (fun st =>
    match st.body with
    | .question q _ QuestionScope.flow =>
      some (Event.slotSet q (.val (trackerInitialValue tr q)))
    | _ => none)

/-- Spec-side frame exposed one position below the top of the stack (the one
a resume-interrupted action names). -/
def frameBelowTop (s : FlowStack) : Option FlowStackFrame :=
  s.frames.dropLast.getLast?

/-- Spec-side trigger-matching qualification of claim C9: a flow qualifies
when its first step is a user-message trigger matched by the classified
intent and entities. -/
def isStartableBy (msg : Message) (flow : Flow) : Bool :=
  match flow.first_step_in_flow with
  | some first_step =>
    match first_step.body with
    | .user_message tc => tc.is_triggered msg.intentName msg.entityTypes
    | _ => false
  | none => false

/-! ## Concrete fixtures

Small concrete flows, trackers and stacks used by the example parts of the
claims, the counterexamples and the witnesses. -/

/-- A domain declaring one slot `x`. -/
def xDomain : Domain := { slots := [{ name := "x", initial_value := .vnone, value := .vnone }] }

/-- A tracker whose slot `x` currently holds the integer 3. -/
def xTracker : Tracker :=
  { slots := [{ name := "x", initial_value := .vnone, value := .vint 3 }],
    latest_action_name := none, latest_message := none,
    active_loop_name := none, loop_happy_path_action := none,
    flow_stack_slot := [] }

/-- Step of the C1 example: two conditional links `x>5` then `x>0`, no else. -/
def xStepC1 : FlowStep :=
  { id := "s1", body := .action "a",
    next := [.ifLink (some { slot := "x", op := .gt, num := 5 }) "step_a",
             .ifLink (some { slot := "x", op := .gt, num := 0 }) "step_b"] }

/-- Step of the C5 witness: one conditional link `x>5`, no else. -/
def c5Step : FlowStep :=
  { id := "s1", body := .action "a",
    next := [.ifLink (some { slot := "x", op := .gt, num := 5 }) "step_a"] }

/-- A simple flow with one action step, named "Flow A". -/
def flowA : Flow :=
  { id := "fa", name := "Flow A", description := "",
    steps := [{ id := "1", body := .action "done", next := [] }] }

/-- A simple flow with one action step, named "Flow B". -/
def flowB : Flow :=
  { id := "fb", name := "Flow B", description := "",
    steps := [{ id := "1", body := .action "other", next := [] }] }

/-- The synthesized terminal End step. -/
def endStepFixture : FlowStep := { id := END_STEP, body := .endStep, next := [] }

/-- Stack of the C2 counterexample: a regular frame of flow `fa` beneath an
interrupt frame of flow `fb` that has reached the End step. -/
def stackC2 : FlowStack :=
  { frames := [{ flow_id := "fa", step_id := "1", frame_type := .regular },
               { flow_id := "fb", step_id := END_STEP, frame_type := .interrupt }] }

/-- A tracker with no slots and no pending conversation state. -/
def trBlank : Tracker :=
  { slots := [], latest_action_name := none, latest_message := none,
    active_loop_name := none, loop_happy_path_action := none,
    flow_stack_slot := [] }

/-- A slot `age` whose current value (30.0) differs from its initial value
(null). -/
def ageSlotFilled : Slot := { name := "age", initial_value := .vnone, value := .vfloat 30 }

/-- Tracker of the C3 fixtures: slot `age` filled with 30.0. -/
def trC3 : Tracker :=
  { slots := [ageSlotFilled], latest_action_name := none, latest_message := none,
    active_loop_name := none, loop_happy_path_action := none,
    flow_stack_slot := [] }

/-- Question step asking for the `age` slot, without skip_if_filled, scoped
to the flow. -/
def qStepC3 : FlowStep :=
  { id := "q1", body := .question "age" false .flow, next := [] }

/-- Tracker of the C4 counterexample: slot `age` filled AND a collection loop
(`age_form`) in flight. -/
def trC4 : Tracker :=
  { slots := [ageSlotFilled], latest_action_name := none, latest_message := none,
    active_loop_name := some "age_form", loop_happy_path_action := some "age_form",
    flow_stack_slot := [] }

/-- A flow whose first step is a user-message trigger on intent `greet`. -/
def greetFlow : Flow :=
  { id := "greetflow", name := "Greet", description := "greets",
    steps := [{ id := START_STEP,
                body := .user_message { intents := ["greet"], entities := [] },
                next := [] }] }

/-- Tracker of the trigger fixtures: an unprocessed `greet` user message (the
latest action is the listen action). -/
def trTrig : Tracker :=
  { slots := [], latest_action_name := some ACTION_LISTEN_NAME,
    latest_message := some { intentName := "greet", entityTypes := [] },
    active_loop_name := none, loop_happy_path_action := none,
    flow_stack_slot := [] }

/-- Flow of the C8 witness: a single action step with no outgoing links. -/
def flowW : Flow :=
  { id := "fw", name := "FW", description := "",
    steps := [{ id := "1", body := .action "greet", next := [] }] }

/-- Stack of the C8 witness: one regular frame of `fw` at step `1`. -/
def stackW : FlowStack :=
  { frames := [{ flow_id := "fw", step_id := "1", frame_type := .regular }] }

/-- Tracker of the C8 witness: no trigger (latest action is not listen) and a
persisted stack blob matching `stackW`. -/
def trW : Tracker :=
  { slots := [], latest_action_name := some "action_greet", latest_message := none,
    active_loop_name := none, loop_happy_path_action := none,
    flow_stack_slot := [{ flow_id := "fw", step_id := "1", frame_type := some "regular" }] }

/-- An empty domain. -/
def domW : Domain := { slots := [] }

/-! ## Helper lemmas -/

/-- The conditional-link scan of `_select_next_step_id` is the first-match
search over satisfied conditional links. -/
theorem scanIfLinks_eq_find (domain : Domain) (tr : Tracker) (links : List FlowLink) :
    scanIfLinks domain tr links =
      (links.find? (isSatisfiedIfLink domain tr)).map FlowLink.target := by
  induction links with
  | nil => rfl
  | cons l rest ih =>
    cases l with
    | static t =>
      simpa [scanIfLinks, isSatisfiedIfLink, List.find?_cons_of_neg] using ih
    | ifLink c t =>
      cases c with
      | none =>
        simpa [scanIfLinks, isSatisfiedIfLink, List.find?_cons_of_neg] using ih
      | some p =>
        by_cases h : is_condition_satisfied p domain tr
        · simp [scanIfLinks, h, List.find?_cons_of_pos, isSatisfiedIfLink,
            FlowLink.target]
        · simp only [scanIfLinks, h, if_false]
          rw [List.find?_cons_of_neg _ (by simp [isSatisfiedIfLink, h])]
          exact ih
    | elseLink t =>
      simpa [scanIfLinks, isSatisfiedIfLink, List.find?_cons_of_neg] using ih

/-- The else-link scan of `_select_next_step_id` is the first-match search
over else links. -/
theorem scanElseLinks_eq_find (links : List FlowLink) :
    scanElseLinks links = (links.find? FlowLink.isElse).map FlowLink.target := by
  induction links with
  | nil => rfl
  | cons l rest ih =>
    cases l with
    | static t =>
      simpa [scanElseLinks, FlowLink.isElse, List.find?_cons_of_neg] using ih
    | ifLink c t =>
      simpa [scanElseLinks, FlowLink.isElse, List.find?_cons_of_neg] using ih
    | elseLink t =>
      simp [scanElseLinks, FlowLink.isElse, List.find?_cons_of_pos, FlowLink.target]

/-- The reset-events loop agrees with the filterMap formulation used in the
claims. -/
theorem resetScopedGo_eq_filterMap (tr : Tracker) (l : List FlowStep) :
    resetScopedGo tr l = l.filterMap (fun st =>
      match st.body with
      | .question q _ QuestionScope.flow =>
        some (Event.slotSet q (.val (trackerInitialValue tr q)))
      | _ => none) := by
  induction l with
  | nil => rfl
  | cons st rest ih =>
    cases hb : st.body with
    | question q skip scope =>
      cases scope with
      | flow => simp [resetScopedGo, hb, List.filterMap_cons, ih]
      | globalScope => simp [resetScopedGo, hb, List.filterMap_cons, ih]
    | action a => simp [resetScopedGo, hb, List.filterMap_cons, ih]
    | link t => simp [resetScopedGo, hb, List.filterMap_cons, ih]
    | set_slots ps => simp [resetScopedGo, hb, List.filterMap_cons, ih]
    | user_message tc => simp [resetScopedGo, hb, List.filterMap_cons, ih]
    | endStep => simp [resetScopedGo, hb, List.filterMap_cons, ih]

/-- The reset events of a flow are exactly the spec-side reset events. -/
theorem reset_scoped_slots_eq_spec (flow : Flow) (tr : Tracker) :
    _reset_scoped_slots flow tr = resetEventsSpec flow tr :=
  resetScopedGo_eq_filterMap tr flow.steps

/-! ## Claim theorems -/

/-- Claim C6 counterexample: the integer 7 is coerced by the code to the
float 7.0, while the claim's rule set (any non-null non-bool non-float
non-string value is left as a string) yields the string "7"; the coercions
disagree at this input. -/
theorem c6_counterexample :
    get_value (.vint 7) = .vfloat 7 ∧
    coerceSpecC6 (.vint 7) = .vstr "7" ∧
    get_value (.vint 7) ≠ coerceSpecC6 (.vint 7) := by
  refine ⟨by decide, by decide, by decide⟩

/-- Claim C6, amended: null, boolean and float values pass through unchanged;
every other value is first converted to its string form, and the string rules
(case-insensitive "true"/"false" to boolean, purely numeric string to float,
otherwise the string itself) are applied to that form. On values that already
are strings this agrees with the claim's original rule set. -/
theorem c6_coercion_amended :
    (∀ v : Value, get_value v =
      match v with
      | .vnone => .vnone
      | .vbool b => .vbool b
      | .vfloat q => .vfloat q
      | other => stringCoercionRules (pyStr other)) ∧
    (∀ s : String, get_value (.vstr s) = coerceSpecC6 (.vstr s)) ∧
    (get_value .vnone = coerceSpecC6 .vnone) ∧
    (∀ b : Bool, get_value (.vbool b) = coerceSpecC6 (.vbool b)) ∧
    (∀ q : ℚ, get_value (.vfloat q) = coerceSpecC6 (.vfloat q)) := by
  refine ⟨fun v => ?_, fun s => rfl, rfl, fun b => rfl, fun q => rfl⟩
  cases v <;> rfl

/-- Claim C10: frame serialization round-trips for every frame type, a
persisted dictionary without a frame type deserializes to a regular frame,
and an unrecognized frame type string fails deserialization. -/
theorem c10_frame_roundtrip :
    (∀ (fid sid : String) (ft : StackFrameType),
      FlowStackFrame.from_dict (FlowStackFrame.as_dict
        { flow_id := fid, step_id := sid, frame_type := ft }) =
        .ok { flow_id := fid, step_id := sid, frame_type := ft }) ∧
    (∀ (fid sid : String),
      FlowStackFrame.from_dict { flow_id := fid, step_id := sid, frame_type := none } =
        .ok { flow_id := fid, step_id := sid, frame_type := .regular }) ∧
    (∀ (fid sid s : String), s ≠ "interrupt" → s ≠ "link" → s ≠ "regular" →
      FlowStackFrame.from_dict { flow_id := fid, step_id := sid, frame_type := some s } =
        .error .notImplementedError) := by
  refine ⟨fun fid sid ft => ?_, fun fid sid => rfl, fun fid sid s h1 h2 h3 => ?_⟩
  · cases ft <;> rfl
  · simp [FlowStackFrame.from_dict, StackFrameType.from_str, StackFrameType.value,
      h1, h2, h3, Bind.bind, Except.bind]

/-- Claim C10 witness: the round trip at a concrete interrupt frame, and the
failure at the unrecognized type string "bogus". -/
theorem c10_witness :
    ("bogus" ≠ "interrupt" ∧ "bogus" ≠ "link" ∧ "bogus" ≠ "regular") ∧
    FlowStackFrame.from_dict { flow_id := "fa", step_id := "1", frame_type := some "bogus" } =
      .error .notImplementedError :=
  ⟨⟨by decide, by decide, by decide⟩,
    c10_frame_roundtrip.2.2 "fa" "1" "bogus" (by decide) (by decide) (by decide)⟩

/-- Claim C1: next-step resolution follows the claimed precedence exactly
(one static link unconditionally; else first satisfied conditional link in
declaration order; else an else link; else the implicit End transition for a
non-terminal step without links, and no successor for the terminal End step);
in particular, the two-conditional-links example `x>5` then `x>0` with `x = 3`
resolves to the second link's target. -/
theorem c1_next_step_precedence :
    (∀ (step : FlowStep) (domain : Domain) (tr : Tracker),
      _select_next_step_id step domain tr = nextStepSpecC1 step domain tr) ∧
    _select_next_step_id xStepC1 xDomain xTracker = .ok (some "step_b") := by
  constructor
  · intro step domain tr
    unfold _select_next_step_id nextStepSpecC1
    rcases hl : step.next with _ | ⟨l, rest⟩
    · rfl
    · cases l with
      | static t =>
        cases rest with
        | nil => rfl
        | cons l2 rest2 =>
          rw [scanIfLinks_eq_find, scanElseLinks_eq_find]; rfl
      | ifLink c t =>
        rw [scanIfLinks_eq_find, scanElseLinks_eq_find]; rfl
      | elseLink t =>
        rw [scanIfLinks_eq_find, scanElseLinks_eq_find]; rfl
  · rfl

/-- Claim C5: a step with outgoing links, none of which is selected (not a
single static link, every conditional link unsatisfied, no else link),
resolves to the fatal exhaustiveness `ValueError`. -/
theorem c5_exhaustiveness_error (step : FlowStep) (domain : Domain) (tr : Tracker)
    (hne : step.next ≠ [])
    (hstatic : singleStaticTarget step.next = none)
    (hif : ∀ l ∈ step.next, isSatisfiedIfLink domain tr l = false)
    (helse : ∀ l ∈ step.next, l.isElse = false) :
    _select_next_step_id step domain tr = .error (.valueError exhaustivenessMsg) := by
  have h1 : scanIfLinks domain tr step.next = none := by
    rw [scanIfLinks_eq_find]
    have h : step.next.find? (isSatisfiedIfLink domain tr) = none :=
      List.find?_eq_none.mpr (fun l hl => by simp [hif l hl])
    simp [h]
  have h2 : scanElseLinks step.next = none := by
    rw [scanElseLinks_eq_find]
    have h : step.next.find? FlowLink.isElse = none :=
      List.find?_eq_none.mpr (fun l hl => by simp [helse l hl])
    simp [h]
  unfold _select_next_step_id
  rw [hstatic, h1, h2]
  have hempty : step.next.isEmpty = false := by
    cases hc : step.next with
    | nil => exact absurd hc hne
    | cons a l => rfl
  simp [hempty]

/-- Claim C5 witness: a step with a single conditional link `x>5`, evaluated
with `x = 3`, triggers the exhaustiveness error. -/
theorem c5_witness :
    (c5Step.next ≠ [] ∧ singleStaticTarget c5Step.next = none) ∧
    _select_next_step_id c5Step xDomain xTracker = .error (.valueError exhaustivenessMsg) :=
  ⟨⟨by decide, by decide⟩,
    c5_exhaustiveness_error c5Step xDomain xTracker (by decide) (by decide)
      (by decide) (by decide)⟩

/-- Claim C2 counterexample: with exactly two frames on the stack (a regular
frame of flow `fa` beneath an interrupt frame of flow `fb` at the End step),
running the End step emits the resume-interrupted action naming "Flow A" and
leaves the stack unpopped, while the claim predicts no action (only one frame
would remain after the pop it describes, fewer than the two it requires) and
a popped stack. -/
theorem c2_counterexample :
    _run_step [flowA, flowB] flowB endStepFixture stackC2 trBlank =
      .ok ({ action_name := some ACTION_FLOW_CONTINUE_INERRUPTED_NAME, score := 1,
             metadata := some [("flow_name", some "Flow A")], events := some [] },
        stackC2) ∧
    stackC2.frames.length = 2 :=
  ⟨rfl, rfl⟩

/-- Claim C2, amended: running an End step leaves the stack unchanged (the
pop happens afterwards in the decision loop, once resolution past End yields
no successor) and emits one reset-to-initial event per flow-scoped question
step of the flow; exactly when at least two frames are on the stack — i.e. at
least one frame remains below the ending one — and the top (about to be
popped) frame's type is Interrupt, it returns the resume-interrupted action
at confidence 1 naming the flow of the frame below the top, without altering
that frame; in every other case it returns no action (confidence 0) with only
the reset events. -/
theorem c2_end_step_amended (flows : List Flow) (flow : Flow) (sid : String)
    (lks : List FlowLink) (stack : FlowStack) (tr : Tracker) :
    _run_step flows flow { id := sid, body := .endStep, next := lks } stack tr =
      .ok ((match frameBelowTop stack, stack.top with
            | some previous_frame, some current_frame =>
              if current_frame.frame_type = StackFrameType.interrupt then
                { action_name := some ACTION_FLOW_CONTINUE_INERRUPTED_NAME, score := 1,
                  metadata := some [("flow_name",
                    (flow_by_id flows previous_frame.flow_id).map Flow.name)],
                  events := some (resetEventsSpec flow tr) }
              else
                { action_name := none, score := 0, metadata := none,
                  events := some (resetEventsSpec flow tr) }
            | _, _ =>
              { action_name := none, score := 0, metadata := none,
                events := some (resetEventsSpec flow tr) }), stack) := by
  have hreset := reset_scoped_slots_eq_spec flow tr
  rcases stack with ⟨frames⟩
  match frames with
  | [] => simp only [_run_step, hreset]; rfl
  | [f] => simp only [_run_step, hreset]; rfl
  | f1 :: f2 :: rest =>
    obtain ⟨cur, hcur⟩ : ∃ x, (f1 :: f2 :: rest).getLast? = some x := by
      rcases h : (f1 :: f2 :: rest).getLast? with _ | x
      · rw [List.getLast?_eq_none_iff] at h; exact absurd h (by simp)
      · exact ⟨x, rfl⟩
    obtain ⟨prev, hprev⟩ : ∃ x, (f1 :: f2 :: rest).dropLast.getLast? = some x := by
      rcases h : (f1 :: f2 :: rest).dropLast.getLast? with _ | x
      · rw [List.getLast?_eq_none_iff] at h; simp [List.dropLast] at h
      · exact ⟨x, rfl⟩
    have h2 : 2 ≤ (f1 :: f2 :: rest).length := by simp
    simp only [_run_step, frameBelowTop, FlowStack.top, hreset, hcur, hprev, if_pos h2]
    by_cases hft : cur.frame_type = StackFrameType.interrupt
    · simp [hft]
    · simp [hft]

/-- Claim C3 counterexample: a question step whose slot is filled (value
differing from its initial value) without skip_if_filled emits the action
`question_age`, not the claimed `ask_age`. -/
theorem c3_counterexample :
    _run_step [] flowA qStepC3 { frames := [] } trC3 =
      .ok ({ action_name := some "question_age", score := 1, metadata := none,
             events := some [Event.slotSet "age" (.val .vnone)] }, { frames := [] }) ∧
    some "question_age" ≠ some ("ask_" ++ "age") :=
  ⟨rfl, by decide⟩

/-- Claim C3, amended: running a question step whose slot exists in the
tracker returns no action (confidence 0) when skip_if_filled is set and the
slot's current value differs from its declared initial value; otherwise it
returns the action `question_<slot>` (not `ask_<slot>`) at confidence 1,
with a single reset-to-initial event exactly when the current value differs
from the initial value. -/
theorem c3_question_step_amended (flows : List Flow) (flow : Flow) (sid q : String)
    (skip : Bool) (scope : QuestionScope) (lks : List FlowLink) (stack : FlowStack)
    (tr : Tracker) (slot : Slot) (hslot : tr.slot_obj q = some slot) :
    _run_step flows flow { id := sid, body := .question q skip scope, next := lks }
        stack tr =
      .ok ((if skip && slot.value ≠ slot.initial_value then
              { action_name := none, score := 0, metadata := none, events := none }
            else
              { action_name := some ("question_" ++ q), score := 1, metadata := none,
                events :=
                  if slot.value ≠ slot.initial_value then
                    some [Event.slotSet q (.val slot.initial_value)]
                  else none }), stack) := by
  simp only [_run_step, hslot]
  split <;> rfl

/-- Claim C3 witness: the amended theorem applied at the filled `age` slot
without skip_if_filled. -/
theorem c3_witness :
    trC3.slot_obj "age" = some ageSlotFilled ∧
    _run_step [] flowA { id := "q1", body := .question "age" false .flow, next := [] }
        { frames := [] } trC3 =
      .ok ({ action_name := some "question_age", score := 1, metadata := none,
             events := some [Event.slotSet "age" (.val .vnone)] }, { frames := [] }) :=
  ⟨rfl, by
    have h := c3_question_step_amended [] flowA "q1" "age" false .flow []
      { frames := [] } trC3 ageSlotFilled rfl
    exact h.trans (by rfl)⟩

/-- Claim C4 counterexample: wrapping up a question step whose slot holds a
non-null value (30.0) while a collection loop is in flight returns the loop
action `age_form` at confidence 1, while the claim predicts no action
(confidence 0) for a non-null slot. -/
theorem c4_counterexample :
    _wrap_up_previous_step qStepC3 trC4 =
      { action_name := some "age_form", score := 1, metadata := none, events := none } ∧
    trC4.get_slot "age" = .vfloat 30 :=
  ⟨rfl, rfl⟩

/-- Claim C4, amended: the wrap-up check ignores the slot value entirely —
for a question step it re-emits the in-flight collection loop action at
confidence 1 whenever one is in flight (whether or not the slot is filled)
and returns no action (confidence 0) otherwise, and for every other variant
it returns no action; the slot-non-null completeness test lives only in the
uncalled helper `_is_step_completed`, which holds a question step completed
exactly when its slot is non-null and every other variant always completed. -/
theorem c4_wrap_up_amended :
    (∀ (step : FlowStep) (tr : Tracker),
      _wrap_up_previous_step step tr =
        match step.body, tr.loop_happy_path_action with
        | .question _ _ _, some name =>
          { action_name := some name, score := 1, metadata := none, events := none }
        | .question _ _ _, none =>
          { action_name := none, score := 0, metadata := none, events := none }
        | _, _ => { action_name := none, score := 0, metadata := none, events := none }) ∧
    (∀ (step : FlowStep) (tr : Tracker),
      _is_step_completed step tr =
        match step.body with
        | .question q _ _ => decide (tr.get_slot q ≠ Value.vnone)
        | _ => true) := by
  constructor
  · intro step tr
    unfold _wrap_up_previous_step
    cases hb : step.body <;> cases hl : tr.loop_happy_path_action <;> rfl
  · intro step tr
    unfold _is_step_completed
    cases hb : step.body <;> rfl

/-- The startable-flow scan is the first-match search over the spec-side
qualification predicate. -/
theorem scanStartable_eq_find (msg : Message) (flows : List Flow) :
    scanStartableFlows msg flows = flows.find? (isStartableBy msg) := by
  induction flows with
  | nil => rfl
  | cons f rest ih =>
    unfold scanStartableFlows
    rcases hf : f.first_step_in_flow with _ | st
    · rw [List.find?_cons_of_neg _ (by simp [isStartableBy, hf])]
      simp only [hf]
      exact ih
    · cases hb : st.body with
      | user_message tc =>
        by_cases htr : tc.is_triggered msg.intentName msg.entityTypes = true
        · rw [List.find?_cons_of_pos _ (by simp [isStartableBy, hf, hb, htr])]
          simp only [hf, hb, htr, if_true]
        · rw [List.find?_cons_of_neg _ (by simp [isStartableBy, hf, hb, htr])]
          simp only [hf, hb]
          rw [if_neg htr]
          exact ih
      | question q sk sc =>
        rw [List.find?_cons_of_neg _ (by simp [isStartableBy, hf, hb])]
        simp only [hf, hb]
        exact ih
      | action a =>
        rw [List.find?_cons_of_neg _ (by simp [isStartableBy, hf, hb])]
        simp only [hf, hb]
        exact ih
      | link t =>
        rw [List.find?_cons_of_neg _ (by simp [isStartableBy, hf, hb])]
        simp only [hf, hb]
        exact ih
      | set_slots ps =>
        rw [List.find?_cons_of_neg _ (by simp [isStartableBy, hf, hb])]
        simp only [hf, hb]
        exact ih
      | endStep =>
        rw [List.find?_cons_of_neg _ (by simp [isStartableBy, hf, hb])]
        simp only [hf, hb]
        exact ih

/-- Claim C9: trigger matching proposes a flow only on an unprocessed user
message (latest action is listen, and a latest message exists); it returns
the first flow in enumeration order whose first step is a user-message
trigger matched by the classified intent and entities, proposed as the
confidence-1 start-flow action; and it is deterministic in the tracker state
and flow set. -/
theorem c9_trigger_matching :
    (∀ (flows : List Flow) (tr : Tracker),
      tr.latest_action_name ≠ some ACTION_LISTEN_NAME →
      find_startable_flow flows tr = none) ∧
    (∀ (flows : List Flow) (tr : Tracker),
      tr.latest_message = none → find_startable_flow flows tr = none) ∧
    (∀ (flows : List Flow) (tr : Tracker) (msg : Message),
      tr.latest_message = some msg →
      tr.latest_action_name = some ACTION_LISTEN_NAME →
      find_startable_flow flows tr = flows.find? (isStartableBy msg)) ∧
    (∀ (flows : List Flow) (tr : Tracker) (f : Flow),
      find_startable_flow flows tr = some f →
      consider_flow_switch flows tr =
        { action_name := some (flowPrefixVal ++ f.id), score := 1,
          metadata := none, events := none }) ∧
    (∀ (flowsA flowsB : List Flow) (trA trB : Tracker),
      flowsA = flowsB → trA = trB →
      consider_flow_switch flowsA trA = consider_flow_switch flowsB trB) := by
  refine ⟨?_, ?_, ?_, ?_, ?_⟩
  · intro flows tr h
    unfold find_startable_flow
    cases hm : tr.latest_message with
    | none => rfl
    | some msg => simp [h]
  · intro flows tr h
    unfold find_startable_flow
    rw [h]
  · intro flows tr msg hm ha
    unfold find_startable_flow
    rw [hm]
    simp [ha, scanStartable_eq_find]
  · intro flows tr f h
    unfold consider_flow_switch
    rw [h]
  · intro flowsA flowsB trA trB hf ht
    rw [hf, ht]

/-- Claim C9 witness: the `greet` message proposes `greetflow` via its
start-flow action. -/
theorem c9_witness :
    find_startable_flow [greetFlow] trTrig = some greetFlow ∧
    consider_flow_switch [greetFlow] trTrig =
      { action_name := some (flowPrefixVal ++ greetFlow.id), score := 1,
        metadata := none, events := none } :=
  ⟨rfl, c9_trigger_matching.2.2.2.1 [greetFlow] trTrig greetFlow rfl⟩

/-- Claim C7: the decision procedure returns a proposed trigger action
immediately (confidence 1, stack untouched, no events and hence no
persistence event); with no trigger and an empty rehydrated stack it returns
no action at confidence 0; and any loop iteration that starts with an empty
stack returns the canonical listen action at confidence 1. -/
theorem c7_decision_procedure :
    (∀ (fuel : Nat) (flows : List Flow) (stack : FlowStack) (tr : Tracker)
        (domain : Domain) (f : Flow),
      find_startable_flow flows tr = some f →
      advance_flows fuel flows stack tr domain =
        .ok ({ action_name := some (flowPrefixVal ++ f.id), score := 1,
               metadata := none, events := none }, stack)) ∧
    (∀ (fuel : Nat) (flows : List Flow) (stack : FlowStack) (tr : Tracker)
        (domain : Domain),
      find_startable_flow flows tr = none → stack.frames = [] →
      advance_flows fuel flows stack tr domain =
        .ok ({ action_name := none, score := 0, metadata := none, events := none },
          stack)) ∧
    (∀ (fuel : Nat) (flows : List Flow) (domain : Domain) (tr : Tracker)
        (stack : FlowStack) (gathered : List Event),
      stack.frames = [] →
      selectNextActionGo flows domain tr (fuel + 1) stack gathered =
        .ok ({ action_name := some ACTION_LISTEN_NAME, score := 1,
               metadata := none, events := some gathered }, stack)) := by
  refine ⟨?_, ?_, ?_⟩
  · intro fuel flows stack tr domain f h
    unfold advance_flows consider_flow_switch
    rw [h]
    rfl
  · intro fuel flows stack tr domain hfind hempty
    unfold advance_flows consider_flow_switch
    rw [hfind]
    have he : stack.is_empty = true := by simp [FlowStack.is_empty, hempty]
    simp [he]
  · intro fuel flows domain tr stack gathered hempty
    unfold selectNextActionGo
    have ht : stack.top_flow flows = none := by
      simp [FlowStack.top_flow, FlowStack.top, hempty]
    rw [ht]

/-- Claim C7 witness: the trigger short-circuit at the `greet` fixture. -/
theorem c7_witness :
    find_startable_flow [greetFlow] trTrig = some greetFlow ∧
    advance_flows 3 [greetFlow] stackW trTrig domW =
      .ok ({ action_name := some (flowPrefixVal ++ greetFlow.id), score := 1,
             metadata := none, events := none }, stackW) :=
  ⟨rfl, c7_decision_procedure.1 3 [greetFlow] stackW trTrig domW greetFlow rfl⟩

/-- Claim C8: at the end of a cycle that reaches the loop (no trigger match,
nonempty initial stack) and completes it, the persistence event carrying the
new stack snapshot is appended exactly when the final stack's serialized form
differs from the stack rehydrated from the tracker; an unchanged stack leaves
the prediction's events untouched. -/
theorem c8_persistence_iff_changed (fuel : Nat) (flows : List Flow)
    (stack : FlowStack) (tr : Tracker) (domain : Domain)
    (pred : ActionPrediction) (stack' rehyd : FlowStack)
    (hswitch : find_startable_flow flows tr = none)
    (hne : stack.is_empty = false)
    (hsel : _select_next_action fuel flows stack tr domain = .ok (pred, stack'))
    (hre : FlowStack.from_tracker tr = .ok rehyd) :
    advance_flows fuel flows stack tr domain =
      .ok ((if rehyd.as_dict ≠ stack'.as_dict then
              { pred with events := some (pred.events.getD [] ++
                  [Event.slotSet FLOW_STACK_SLOT (.stack stack'.as_dict)]) }
            else pred), stack') := by
  unfold advance_flows consider_flow_switch
  rw [hswitch]
  simp only [Option.isSome_none, Bool.false_eq_true, if_false, ite_false, hne,
    hsel, hre, Bind.bind, Except.bind]
  by_cases hd : rehyd.as_dict ≠ stack'.as_dict
  · rw [if_pos hd, if_pos hd]
  · rw [if_neg hd, if_neg hd]

/-- Claim C8 witness: a one-step flow run to completion pops its frame, so
the final empty stack differs from the persisted one and the listen action
carries the persistence event with the new (empty) snapshot. -/
theorem c8_witness :
    _select_next_action 5 [flowW] stackW trW domW =
      .ok ({ action_name := some ACTION_LISTEN_NAME, score := 1, metadata := none,
             events := some [] }, { frames := [] }) ∧
    advance_flows 5 [flowW] stackW trW domW =
      .ok ({ action_name := some ACTION_LISTEN_NAME, score := 1, metadata := none,
             events := some [Event.slotSet FLOW_STACK_SLOT (.stack [])] },
        { frames := [] }) := by
  refine ⟨rfl, ?_⟩
  have h := c8_persistence_iff_changed 5 [flowW] stackW trW domW
    { action_name := some ACTION_LISTEN_NAME, score := 1, metadata := none,
      events := some [] }
    { frames := [] } stackW rfl rfl rfl rfl
  exact h.trans (by rfl)

end FlowPolicy
